import Mathlib

/-!
Verification of the geospatial camera-path engine (earth-previz).

Shallow embedding conventions:
* Python floats are modelled as exact numbers: `ℚ` where the repository only
  performs field arithmetic and comparisons on them (times, scores, indices),
  and `ℝ` where trigonometric functions are involved (coordinates, angles).
* Python `%` on floats (sign of the divisor) is `pymod x m = x - m * ⌊x / m⌋`.
* Python `round` (banker's rounding, half to even) is `pyround`.
* `bisect.bisect_right` is modelled, on the sorted lists the repository feeds
  it, by its documented contract: the number of elements `≤` the query.
-/

namespace EarthPreviz

/-- Python float modulo for a positive modulus: `x - m * floor (x / m)`
(the result carries the sign of the divisor). Real-valued version, used by
bearing and angle interpolation. -/
noncomputable def pymodR (x m : ℝ) : ℝ := x - m * ⌊x / m⌋

/-- Python `round` to the nearest integer, ties to even, on exact rationals. -/
def pyround (q : ℚ) : ℤ :=
  if q - ⌊q⌋ < 1 / 2 then ⌊q⌋
  else if 1 / 2 < q - ⌊q⌋ then ⌊q⌋ + 1
  else if ⌊q⌋ % 2 = 0 then ⌊q⌋ else ⌊q⌋ + 1

theorem pyround_le (q : ℚ) : (pyround q : ℚ) ≤ q + 1 / 2 := by
  unfold pyround
  have hfl : (⌊q⌋ : ℚ) ≤ q := Int.floor_le q
  have hfl2 : q < (⌊q⌋ : ℚ) + 1 := Int.lt_floor_add_one q
  split_ifs with h1 h2 h3 <;> push_cast <;> linarith

theorem le_pyround (q : ℚ) : q - 1 / 2 ≤ (pyround q : ℚ) := by
  unfold pyround
  have hfl : (⌊q⌋ : ℚ) ≤ q := Int.floor_le q
  have hfl2 : q < (⌊q⌋ : ℚ) + 1 := Int.lt_floor_add_one q
  split_ifs with h1 h2 h3 <;> push_cast <;> linarith

theorem pyround_intCast (n : ℤ) : pyround (n : ℚ) = n := by
  unfold pyround
  rw [Int.floor_intCast]
  norm_num

/-- Lower and upper bound for `pymodR` with a positive modulus:
the result lies in `[0, m)`. -/
theorem pymodR_bounds (x m : ℝ) (hm : 0 < m) :
    0 ≤ pymodR x m ∧ pymodR x m < m := by
  have hne : m ≠ 0 := ne_of_gt hm
  have hfr : pymodR x m = m * Int.fract (x / m) := by
    unfold pymodR Int.fract
    field_simp
  constructor
  · rw [hfr]
    exact mul_nonneg (le_of_lt hm) (Int.fract_nonneg _)
  · rw [hfr]
    have := Int.fract_lt_one (x / m)
    calc m * Int.fract (x / m) < m * 1 := by
          exact (mul_lt_mul_left hm).mpr this
      _ = m := by ring

/-- Python `math.atan2 y x`: angle of the point `(x, y)` in `(-π, π]`
(signed zeros ignored; `atan2 0 0 = 0` as in CPython). -/
noncomputable def arctan2 (y x : ℝ) : ℝ :=
  if 0 < x then Real.arctan (y / x)
  else if x < 0 then
    (if 0 ≤ y then Real.arctan (y / x) + Real.pi else Real.arctan (y / x) - Real.pi)
  else if 0 < y then Real.pi / 2
  else if y < 0 then -(Real.pi / 2)
  else 0

/-- Python `math.radians`. -/
noncomputable def radians (d : ℝ) : ℝ := d * Real.pi / 180

/-- Python `math.degrees`. -/
noncomputable def degrees (r : ℝ) : ℝ := r * 180 / Real.pi

/-- Shared linear interpolation helper `_lerp(a, b, t) = a + (b - a) * t`
(renderer.py, esp_exporter.py, camera_path.py). -/
def lerp (a b t : ℝ) : ℝ := a + (b - a) * t

/-- statistics.mean on a list of floats: sum divided by length. -/
noncomputable def meanR (l : List ℝ) : ℝ := l.sum / l.length

/-! WGS84-like constants shared by esp_parser.py and esp_exporter.py. -/

/-- Semi-major axis (m), `EARTH_A` in the source. -/
noncomputable def EARTH_A : ℝ := 6378137

/-- Flattening, `EARTH_F` in the source. -/
noncomputable def EARTH_F : ℝ := 1 / 298.257223563

/-- Semi-minor axis, `EARTH_B = EARTH_A * (1 - EARTH_F)`. -/
noncomputable def EARTH_B : ℝ := EARTH_A * (1 - EARTH_F)

/-- Squared eccentricity, `EARTH_E2 = 2 f - f²`. -/
noncomputable def EARTH_E2 : ℝ := 2 * EARTH_F - EARTH_F * EARTH_F

/-- One step of the Bowring-style fixed-point iteration inside
`_ecef_to_geodetic` (esp_parser.py lines 21-24), for fixed `z` and `p`. -/
noncomputable def ecefIterStep (z p lat : ℝ) : ℝ :=
  arctan2 (z + EARTH_E2 * (EARTH_A / Real.sqrt (1 - EARTH_E2 * Real.sin lat * Real.sin lat)) * Real.sin lat) p

/-- `_ecef_to_geodetic` (esp_parser.py): longitude from atan2, latitude from a
seed refined by 12 fixed iterations, altitude with a near-pole branch when
`|cos lat| ≤ 1e-10`. Returns `(lat_deg, lng_deg, alt_m)`. -/
noncomputable def ecef_to_geodetic (x y z : ℝ) : ℝ × ℝ × ℝ :=
  let lng_rad := arctan2 y x
  let p := Real.sqrt (x * x + y * y)
  let lat_seed := arctan2 z (p * (1 - EARTH_E2))
  let lat_rad := (ecefIterStep z p)^[12] lat_seed
  let sin_lat := Real.sin lat_rad
  let n := EARTH_A / Real.sqrt (1 - EARTH_E2 * sin_lat * sin_lat)
  let cos_lat := Real.cos lat_rad
  let alt := if 1 / 10000000000 < |cos_lat| then p / cos_lat - n else |z| - EARTH_B
  (degrees lat_rad, degrees lng_rad, alt)

/-- `_geodetic_to_ecef` (esp_exporter.py lines 14-25): closed-form forward
transform from geodetic coordinates to ECEF on the same ellipsoid. -/
noncomputable def geodetic_to_ecef (lat_deg lng_deg alt_m : ℝ) : ℝ × ℝ × ℝ :=
  let lat := radians lat_deg
  let lng := radians lng_deg
  let sin_lat := Real.sin lat
  let cos_lat := Real.cos lat
  let sin_lng := Real.sin lng
  let cos_lng := Real.cos lng
  let n := EARTH_A / Real.sqrt (1 - EARTH_E2 * sin_lat * sin_lat)
  ((n + alt_m) * cos_lat * cos_lng, (n + alt_m) * cos_lat * sin_lng,
    (n * (1 - EARTH_E2) + alt_m) * sin_lat)

/-- The round-trip property of the transform pair over the real-valued
embedding: geodetic inputs inside the given domain are recovered by
`ecef_to_geodetic` after `geodetic_to_ecef` within `eps_deg` degrees on
latitude and longitude and `eps_alt` meters on altitude. The documented
tolerance instance is `geodetic_round_trip_within (1 / 1000000) (1 / 100)`,
whose proof would need a quantitative convergence bound for the 12-step
fixed-point iteration inside `ecef_to_geodetic`. -/
def geodetic_round_trip_within (eps_deg eps_alt : ℝ) : Prop :=
  ∀ lat lng alt : ℝ, -89 < lat → lat < 89 → -180 < lng → lng < 180 →
    0 ≤ alt → alt ≤ 20000 →
    |(ecef_to_geodetic (geodetic_to_ecef lat lng alt).1
        (geodetic_to_ecef lat lng alt).2.1 (geodetic_to_ecef lat lng alt).2.2).1 - lat| ≤ eps_deg
    ∧ |(ecef_to_geodetic (geodetic_to_ecef lat lng alt).1
        (geodetic_to_ecef lat lng alt).2.1 (geodetic_to_ecef lat lng alt).2.2).2.1 - lng| ≤ eps_deg
    ∧ |(ecef_to_geodetic (geodetic_to_ecef lat lng alt).1
        (geodetic_to_ecef lat lng alt).2.1 (geodetic_to_ecef lat lng alt).2.2).2.2 - alt| ≤ eps_alt

/-- `_ecef_magnitude` (esp_parser.py). -/
noncomputable def ecef_magnitude (x y z : ℝ) : ℝ := Real.sqrt (x * x + y * y + z * z)

/-- `_bearing_deg` (esp_parser.py / camera_path.py): initial great-circle
bearing from point 1 toward point 2, normalized to `[0, 360)`. -/
noncomputable def bearing_deg (lat1 lng1 lat2 lng2 : ℝ) : ℝ :=
  let lat1_r := radians lat1
  let lat2_r := radians lat2
  let dlng := radians (lng2 - lng1)
  let y := Real.sin dlng * Real.cos lat2_r
  let x := Real.cos lat1_r * Real.sin lat2_r - Real.sin lat1_r * Real.cos lat2_r * Real.cos dlng
  pymodR (degrees (arctan2 y x) + 360) 360

/-- `_ground_distance_m` (esp_parser.py): haversine distance on a sphere of
radius `EARTH_A`. -/
noncomputable def ground_distance_m (lat1 lng1 lat2 lng2 : ℝ) : ℝ :=
  let lat1_r := radians lat1
  let lat2_r := radians lat2
  let dlat := radians lat2 - radians lat1
  let dlng := radians lng2 - radians lng1
  let a := Real.sin (dlat / 2) ^ 2 + Real.cos lat1_r * Real.cos lat2_r * Real.sin (dlng / 2) ^ 2
  2 * EARTH_A * arctan2 (Real.sqrt a) (Real.sqrt (1 - a))

/-- `_look_at_tilt_deg` (esp_parser.py): tilt that centers the target,
`degrees (atan2 cam_alt (max ground_distance 1))`. -/
noncomputable def look_at_tilt_deg (cam_lat cam_lng cam_alt target_lat target_lng : ℝ) : ℝ :=
  degrees (arctan2 cam_alt (max (ground_distance_m cam_lat cam_lng target_lat target_lng) 1))

/-! Data model (models.py). Times are exact rationals (every `t` the
repository constructs is a ratio of integers); geographic fields are reals. -/

/-- CameraKeyframe (models.py): immutable camera pose at time `t`. -/
structure CameraKeyframe where
  t : ℚ
  lat : ℝ
  lng : ℝ
  alt_m : ℝ
  heading_deg : ℝ
  tilt_deg : ℝ

/-- ShotPlan (models.py): a camera trajectory plus metadata. -/
structure ShotPlan where
  shot_id : String
  title : String
  style : String
  duration_sec : ℤ
  target_lat : ℝ
  target_lng : ℝ
  keyframes : List CameraKeyframe
  notes : String

/-- The camera-state dictionary returned by renderer._interpolate_state. -/
structure CamState where
  lat : ℝ
  lng : ℝ
  alt_m : ℝ
  heading_deg : ℝ
  tilt_deg : ℝ

/-- The state dictionary built from a single keyframe (the clamp branches of
renderer._interpolate_state). -/
def stateOf (k : CameraKeyframe) : CamState :=
  ⟨k.lat, k.lng, k.alt_m, k.heading_deg, k.tilt_deg⟩

/-- Shortest-arc angular interpolation `_lerp_angle_deg` (renderer.py lines
36-38; identical to `_lerp_angle` in esp_exporter.py lines 44-46). -/
noncomputable def lerp_angle_deg (a b t : ℝ) : ℝ :=
  pymodR (a + (pymodR (b - a + 180) 360 - 180) * t + 360) 360

/-- A dummy keyframe standing in for Python's IndexError on empty input. -/
def dummyKeyframe : CameraKeyframe := ⟨0, 0, 0, 0, 0, 0⟩

/-- Python `bisect.bisect_right` on the sorted lists the renderer feeds it,
modelled by its documented contract: the number of entries `≤ x`. -/
def bisect_right (l : List ℚ) (x : ℚ) : ℕ := l.countP (fun v => decide (v ≤ x))

/-- The bracketing-segment blend of renderer._interpolate_state (lines
64-74): `a = keyframes[idx - 1]`, `b = keyframes[idx]`, epsilon-floored span,
linear blends plus the shortest-arc heading blend. -/
noncomputable def interpSegment (ks : List CameraKeyframe) (t : ℚ) (idx : ℕ) : CamState :=
  let a := ks.getD (idx - 1) dummyKeyframe
  let b := ks.getD idx dummyKeyframe
  let span : ℚ := max (b.t - a.t) (1 / 100000000)
  let p : ℚ := (t - a.t) / span
  ⟨lerp a.lat b.lat (p : ℝ), lerp a.lng b.lng (p : ℝ), lerp a.alt_m b.alt_m (p : ℝ),
    lerp_angle_deg a.heading_deg b.heading_deg (p : ℝ), lerp a.tilt_deg b.tilt_deg (p : ℝ)⟩

/-- renderer._interpolate_state (renderer.py lines 41-74). Python raises
IndexError on an empty list; the `[]` case is a junk value never relied
on. -/
noncomputable def interpolate_state (keyframes : List CameraKeyframe) (t : ℚ) : CamState :=
  match keyframes with
  | [] => stateOf dummyKeyframe
  | k0 :: rest =>
    if t ≤ k0.t then stateOf k0
    else if (k0 :: rest).length ≤ bisect_right ((k0 :: rest).map (fun k => k.t)) t then
      stateOf ((k0 :: rest).getLastD dummyKeyframe)
    else
      interpSegment (k0 :: rest) t (bisect_right ((k0 :: rest).map (fun k => k.t)) t)

/-! Interchange import (esp_parser.py). The JSON file read and the raw
trackpoint attribute extraction are I/O-level; the model starts from the
decoded camera-frame positions and the already-extracted trackpoint
coordinates, which is all parse_esp consumes. -/

/-- An ECEF position record from the cameraFrames array. -/
structure Pos where
  x : ℝ
  y : ℝ
  z : ℝ

/-- An extracted trackpoint coordinate (output of _extract_trackpoints). -/
structure TrackPt where
  name : String
  lat : ℝ
  lng : ℝ
  alt : ℝ

/-- The decoded interchange document, as consumed by parse_esp. -/
structure EspData where
  cameraFrames : List Pos
  trackPoints : List TrackPt

/-- `_detect_ecef_scale` (esp_parser.py lines 85-93): scale 1 if the raw
magnitude lies strictly between 5,000,000 and 8,000,000 m, else scale 100 if
the magnitude of the coordinates multiplied by 100 does, else none. -/
noncomputable def detect_ecef_scale (p : Pos) : Option ℝ :=
  if 5000000 < ecef_magnitude p.x p.y p.z ∧ ecef_magnitude p.x p.y p.z < 8000000 then
    some 1
  else if 5000000 < ecef_magnitude (p.x * 100) (p.y * 100) (p.z * 100) ∧
      ecef_magnitude (p.x * 100) (p.y * 100) (p.z * 100) < 8000000 then
    some 100
  else none

/-- `_subsample_indices` (esp_parser.py lines 96-100): all indices when
`total ≤ max_keyframes`, otherwise `max_keyframes` rounded multiples of
`(total - 1) / (max_keyframes - 1)`. -/
def subsample_indices (total max_keyframes : ℕ) : List ℤ :=
  if total ≤ max_keyframes then (List.range total).map (fun (i : ℕ) => (i : ℤ))
  else
    (List.range max_keyframes).map
      (fun (i : ℕ) => pyround (((total : ℚ) - 1) / ((max_keyframes : ℚ) - 1) * (i : ℚ)))

/-- First target-resolution step of parse_esp (lines 121-127): keep a fully
supplied caller target, otherwise take the first trackpoint, otherwise
`(0, 0)`. -/
def resolveTarget1 (target_lat target_lng : Option ℝ) (tps : List TrackPt) : ℝ × ℝ :=
  match target_lat, target_lng with
  | some la, some ln => (la, ln)
  | _, _ =>
    match tps with
    | tp :: _ => (tp.lat, tp.lng)
    | [] => (0, 0)

/-- Second target-resolution step of parse_esp (lines 144-148): when the
current target is exactly `(0, 0)` and no trackpoints exist, replace it by
the arithmetic mean of the converted frame latitudes and longitudes. -/
noncomputable def resolveTarget2 (t1 : ℝ × ℝ) (tps : List TrackPt) (geos : List (ℝ × ℝ × ℝ)) : ℝ × ℝ :=
  if t1.1 = 0 ∧ t1.2 = 0 ∧ tps.isEmpty then
    (meanR (geos.map (fun g => g.1)), meanR (geos.map (fun g => g.2.1)))
  else t1

/-- parse_esp (esp_parser.py lines 103-195), after JSON decoding; `stem` is
the file stem. The metadata dictionary is omitted (its resolved target also
appears in the plan's target fields). -/
noncomputable def parse_esp (data : EspData) (fps : ℤ) (max_keyframes : ℕ)
    (target_lat target_lng : Option ℝ) (stem : String) : Except String ShotPlan :=
  match data.cameraFrames with
  | [] => .error "No cameraFrames found"
  | f0 :: fs =>
    let t1 := resolveTarget1 target_lat target_lng data.trackPoints
    match detect_ecef_scale f0 with
    | none =>
      .error "Unable to interpret cameraFrames position coordinates as ECEF."
    | some scale =>
      let allGeo := (f0 :: fs).map
        (fun q => ecef_to_geodetic (q.x * scale) (q.y * scale) (q.z * scale))
      let t2 := resolveTarget2 t1 data.trackPoints allGeo
      let total := allGeo.length
      let m : ℤ := max fps 1
      let dur : ℤ := pyround ((total : ℚ) / (m : ℚ))
      let indices := subsample_indices total max_keyframes
      let kfs := indices.map (fun (idx : ℤ) =>
        let g := allGeo.getD idx.toNat (0, 0, 0)
        ⟨(idx : ℚ) / (m : ℚ), g.1, g.2.1, g.2.2,
          bearing_deg g.1 g.2.1 t2.1 t2.2,
          look_at_tilt_deg g.1 g.2.1 g.2.2 t2.1 t2.2⟩)
      .ok ⟨stem, "ESP Import: " ++ stem, "imported", dur, t2.1, t2.2, kfs,
        "Camera path imported from Earth Studio project."⟩

/-! Path builders (camera_path.py). -/

/-- `EARTH_RADIUS_M` in camera_path.py (same value as the semi-major axis). -/
noncomputable def EARTH_RADIUS_M : ℝ := 6378137

/-- `_offset_lat_lng` (camera_path.py lines 15-19): flat-Earth small-angle
displacement of `(north_m, east_m)` meters from a reference point. -/
noncomputable def offset_lat_lng (lat lng north_m east_m : ℝ) : ℝ × ℝ :=
  let lat_rad := radians lat
  let d_lat := north_m / EARTH_RADIUS_M
  let d_lng := east_m / (EARTH_RADIUS_M * max (Real.cos lat_rad) (1 / 100000000))
  (lat + degrees d_lat, lng + degrees d_lng)

/-- `_MIN_TILT_DEG` (camera_path.py). -/
noncomputable def MIN_TILT_DEG : ℝ := 5

/-- `_MAX_TILT_DEG` (camera_path.py). -/
noncomputable def MAX_TILT_DEG : ℝ := 89

/-- `_orbit_keyframes` (camera_path.py lines 55-94). Arguments follow the
source order: target, duration, radius start/end, altitude start/end, azimuth
start, sweep, tilt offset, samples. -/
noncomputable def orbit_keyframes (target_lat target_lng : ℝ) (duration_sec : ℤ)
    (radius_start_m radius_end_m alt_start_m alt_end_m azimuth_start_deg sweep_deg
      tilt_offset_deg : ℝ) (samples : ℕ) : List CameraKeyframe :=
  (List.range samples).map (fun (i : ℕ) =>
    let p : ℚ := (i : ℚ) / ((samples : ℚ) - 1)
    let radius := lerp radius_start_m radius_end_m (p : ℝ)
    let azimuth_deg := azimuth_start_deg + sweep_deg * (p : ℝ)
    let azimuth := radians azimuth_deg
    let north := radius * Real.cos azimuth
    let east := radius * Real.sin azimuth
    let ll := offset_lat_lng target_lat target_lng north east
    let alt := lerp alt_start_m alt_end_m (p : ℝ)
    let heading := bearing_deg ll.1 ll.2 target_lat target_lng
    let raw_tilt := look_at_tilt_deg ll.1 ll.2 alt target_lat target_lng + tilt_offset_deg
    ⟨(duration_sec : ℚ) * p, ll.1, ll.2, alt, heading,
      max MIN_TILT_DEG (min MAX_TILT_DEG raw_tilt)⟩)

/-- The position list built by the first loop of `_dolly_keyframes`
(camera_path.py lines 116-126). -/
noncomputable def dollyPositions (target_lat target_lng : ℝ)
    (approach_azimuth_deg distance_start_m distance_end_m alt_start_m alt_end_m
      lateral_offset_start_m lateral_offset_end_m : ℝ) (samples : ℕ) : List (ℝ × ℝ × ℝ) :=
  (List.range samples).map (fun (i : ℕ) =>
    let p : ℚ := (i : ℚ) / ((samples : ℚ) - 1)
    let forward := radians approach_azimuth_deg
    let right := radians (approach_azimuth_deg + 90)
    let dist := lerp distance_start_m distance_end_m (p : ℝ)
    let lateral := lerp lateral_offset_start_m lateral_offset_end_m (p : ℝ)
    let north := dist * Real.cos forward + lateral * Real.cos right
    let east := dist * Real.sin forward + lateral * Real.sin right
    let ll := offset_lat_lng target_lat target_lng north east
    (ll.1, ll.2, lerp alt_start_m alt_end_m (p : ℝ)))

/-- `_dolly_keyframes` (camera_path.py lines 97-156): the second loop over the
position list, with the look-forward or look-at-target heading and tilt. -/
noncomputable def dolly_keyframes (target_lat target_lng : ℝ) (duration_sec : ℤ)
    (approach_azimuth_deg distance_start_m distance_end_m alt_start_m alt_end_m
      lateral_offset_start_m lateral_offset_end_m : ℝ) (look_forward : Bool)
    (forward_tilt_deg : ℝ) (samples : ℕ) : List CameraKeyframe :=
  let positions := dollyPositions target_lat target_lng approach_azimuth_deg
    distance_start_m distance_end_m alt_start_m alt_end_m
    lateral_offset_start_m lateral_offset_end_m samples
  (List.range samples).map (fun (i : ℕ) =>
    let p : ℚ := (i : ℚ) / ((samples : ℚ) - 1)
    let cur := positions.getD i (0, 0, 0)
    let hd :=
      if look_forward then
        let nxt :=
          if i < positions.length - 1 then
            let q := positions.getD (i + 1) (0, 0, 0)
            (q.1, q.2.1)
          else
            let prv := positions.getD (i - 1) (0, 0, 0)
            (cur.1 + (cur.1 - prv.1), cur.2.1 + (cur.2.1 - prv.2.1))
        (bearing_deg cur.1 cur.2.1 nxt.1 nxt.2,
          max MIN_TILT_DEG (min MAX_TILT_DEG forward_tilt_deg))
      else
        (bearing_deg cur.1 cur.2.1 target_lat target_lng,
          max MIN_TILT_DEG
            (min MAX_TILT_DEG (look_at_tilt_deg cur.1 cur.2.1 cur.2.2 target_lat target_lng)))
    ⟨(duration_sec : ℚ) * p, cur.1, cur.2.1, cur.2.2, hd.1, hd.2⟩)

/-- `_figure_eight_keyframes` (camera_path.py lines 159-192). -/
noncomputable def figure_eight_keyframes (target_lat target_lng : ℝ) (duration_sec : ℤ)
    (radius_m alt_start_m alt_end_m loops : ℝ) (samples : ℕ) : List CameraKeyframe :=
  (List.range samples).map (fun (i : ℕ) =>
    let p : ℚ := (i : ℚ) / ((samples : ℚ) - 1)
    let theta := 2 * Real.pi * loops * (p : ℝ)
    let east := radius_m * Real.sin theta
    let north := radius_m * Real.sin theta * Real.cos theta
    let ll := offset_lat_lng target_lat target_lng north east
    let alt := lerp alt_start_m alt_end_m (p : ℝ)
    let heading := bearing_deg ll.1 ll.2 target_lat target_lng
    let raw_tilt := look_at_tilt_deg ll.1 ll.2 alt target_lat target_lng
    ⟨(duration_sec : ℚ) * p, ll.1, ll.2, alt, heading,
      max MIN_TILT_DEG (min MAX_TILT_DEG raw_tilt)⟩)

/-- The fixed ten-preset catalog of generate_shot_plans (camera_path.py lines
195-390), instantiated against a target and duration. -/
noncomputable def shotCatalog (target_lat target_lng : ℝ) (duration_sec : ℤ) : List ShotPlan :=
  [ ⟨"aerial_slow_orbit_close", "Aerial Slow Orbit (Close)", "helicopter", duration_sec,
      target_lat, target_lng,
      orbit_keyframes target_lat target_lng duration_sec 850 850 475 475 0 15 (-5) 13,
      "Mid-altitude close orbit. Medium distance to avoid building clipping."⟩,
    ⟨"aerial_flyby_north", "Aerial Flyby (North to South)", "helicopter", duration_sec,
      target_lat, target_lng,
      dolly_keyframes target_lat target_lng duration_sec 0 400 400 500 500 (-50) 50 true 78 13,
      "Straight flyby. Aerial shot passing alongside the building (forward-looking)."⟩,
    ⟨"aerial_extreme_slow", "Aerial Extreme Slow Orbit", "helicopter", duration_sec,
      target_lat, target_lng,
      orbit_keyframes target_lat target_lng duration_sec 1000 1000 550 550 270 5 (-5) 13,
      "Extremely slow orbit. Barely perceptible movement, ideal for screensaver loops."⟩,
    ⟨"aerial_flythrough_east", "Aerial Flythrough (East to West)", "helicopter", duration_sec,
      target_lat, target_lng,
      dolly_keyframes target_lat target_lng duration_sec 90 350 350 600 600 (-40) 40 false 78 13,
      "Flythrough. Passes laterally with the building centered on screen."⟩,
    ⟨"aerial_slow_orbit_wide", "Aerial Slow Orbit (Wide)", "helicopter", duration_sec,
      target_lat, target_lng,
      orbit_keyframes target_lat target_lng duration_sec 1500 1500 750 750 45 13 (-5) 13,
      "High-altitude wide orbit. City-scale screensaver."⟩,
    ⟨"aerial_flyby_diagonal", "Aerial Flyby (Diagonal)", "helicopter", duration_sec,
      target_lat, target_lng,
      dolly_keyframes target_lat target_lng duration_sec 45 450 450 700 700 (-47) 47 true 78 13,
      "Diagonal flyby. Passes diagonally alongside the building (forward-looking)."⟩,
    ⟨"aerial_slow_descent", "Aerial Slow Descent Orbit", "helicopter", duration_sec,
      target_lat, target_lng,
      orbit_keyframes target_lat target_lng duration_sec 1500 800 1000 450 90 17 (-5) 13,
      "Orbit with slow altitude descent. Creates a sense of gradually approaching."⟩,
    ⟨"aerial_grand_panorama", "Aerial Grand Panorama", "helicopter", duration_sec,
      target_lat, target_lng,
      orbit_keyframes target_lat target_lng duration_sec 2500 2500 1400 1400 270 10 (-5) 13,
      "Ultra-high altitude large arc. Panoramic view of the entire terrain."⟩,
    ⟨"aerial_slow_ascent", "Aerial Slow Ascent Orbit", "helicopter", duration_sec,
      target_lat, target_lng,
      orbit_keyframes target_lat target_lng duration_sec 600 1600 400 1100 200 17 (-5) 13,
      "Orbit with slow altitude ascent. Creates a sense of expanding scale."⟩,
    ⟨"aerial_ultra_high", "Aerial Ultra High Overview", "helicopter", duration_sec,
      target_lat, target_lng,
      orbit_keyframes target_lat target_lng duration_sec 3000 3000 2000 2000 120 8 (-5) 13,
      "Ultra-high altitude ultra-wide orbit. Screensaver overlooking the entire area."⟩ ]

/-- generate_shot_plans (camera_path.py lines 195-409): error below one shot,
otherwise the first `min num_shots 10` catalog presets. -/
noncomputable def generate_shot_plans (target_lat target_lng : ℝ) (duration_sec : ℤ)
    (num_shots : ℤ) : Except String (List ShotPlan) :=
  if num_shots < 1 then .error "num_shots must be at least 1"
  else .ok ((shotCatalog target_lat target_lng duration_sec).take (min num_shots.toNat 10))

/-! Platform recommender (recommender.py). recommend_platform reads exactly
three keys of the motion dictionary; the model carries just those. -/

/-- The slice of the motion-summary dictionary read by recommend_platform. -/
structure Motion where
  max_altitude_m : ℚ
  max_speed_mps : ℚ
  avg_radius_m : ℚ

/-- The dictionary returned by recommend_platform. -/
structure Recommendation where
  recommended_platform : String
  confidence : ℚ
  drone_score : ℤ
  helicopter_score : ℤ
  reasons : List String

/-- Python `round(x, 3)` on exact rationals: half-to-even at three decimals. -/
def pyround3 (q : ℚ) : ℚ := (pyround (q * 1000) : ℚ) / 1000

/-- recommend_platform (recommender.py lines 66-124): three-factor additive
scoring, order-preserving justification strings, platform by score
comparison, confidence = |drone − heli| / max (drone + heli) 1 rounded to
three decimals. -/
def recommend_platform (m : Motion) : Recommendation :=
  let alt3 : ℤ × ℤ × String :=
    if m.max_altitude_m ≤ 120 then (3, 0, "최대 고도가 낮아 드론 운용 범위에 적합합니다.")
    else if m.max_altitude_m ≤ 220 then (1, 1, "중간 고도라 드론/헬기 모두 가능성이 있습니다.")
    else (0, 3, "최대 고도가 높아 헬리콥터가 안정적입니다.")
  let spd3 : ℤ × ℤ × String :=
    if m.max_speed_mps ≤ 10 then (3, 0, "최대 속도가 낮아 드론 워킹샷에 유리합니다.")
    else if m.max_speed_mps ≤ 18 then (1, 1, "속도 요구가 중간 수준입니다.")
    else (0, 3, "속도 요구가 커 헬리콥터가 더 자연스럽습니다.")
  let rad3 : ℤ × ℤ × String :=
    if m.avg_radius_m ≤ 500 then (2, 0, "평균 반경이 좁아 드론 근접 무빙에 적합합니다.")
    else if m.avg_radius_m ≤ 1000 then (1, 1, "평균 반경이 중간 규모입니다.")
    else (0, 2, "평균 반경이 넓어 헬리콥터가 유리합니다.")
  let drone_score := alt3.1 + spd3.1 + rad3.1
  let heli_score := alt3.2.1 + spd3.2.1 + rad3.2.1
  let platform :=
    if heli_score > drone_score then "helicopter"
    else if drone_score > heli_score then "drone"
    else "hybrid"
  let total := max (drone_score + heli_score) 1
  let confidence : ℚ := (|drone_score - heli_score| : ℤ) / (total : ℚ)
  ⟨platform, pyround3 confidence, drone_score, heli_score,
    [alt3.2.2, spd3.2.2, rad3.2.2]⟩

/-! Helper lemmas. -/

theorem pymodR_eval (x m : ℝ) (k : ℤ) (hm : 0 < m) (h1 : m * k ≤ x) (h2 : x < m * (k + 1)) :
    pymodR x m = x - m * k := by
  unfold pymodR
  have hfl : ⌊x / m⌋ = k := by
    rw [Int.floor_eq_iff]
    constructor
    · rw [le_div_iff₀ hm]
      linarith [h1]
    · rw [div_lt_iff₀ hm]
      linarith [h2]
  rw [hfl]

theorem arctan2_zero_pos (x : ℝ) (hx : 0 < x) : arctan2 0 x = 0 := by
  unfold arctan2
  rw [if_pos hx]
  simp

theorem arctan2_pos_zero (y : ℝ) (hy : 0 < y) : arctan2 y 0 = Real.pi / 2 := by
  unfold arctan2
  rw [if_neg (lt_irrefl 0), if_neg (lt_irrefl 0), if_pos hy]

theorem arctan2_zero_zero : arctan2 0 0 = 0 := by
  unfold arctan2
  norm_num

theorem radians_zero : radians 0 = 0 := by
  unfold radians
  ring

theorem degrees_zero : degrees 0 = 0 := by
  unfold degrees
  ring

theorem degrees_pi_div_two : degrees (Real.pi / 2) = 90 := by
  unfold degrees
  field_simp
  ring

theorem EARTH_F_bounds : 0 < EARTH_F ∧ EARTH_F < 1 := by
  unfold EARTH_F
  norm_num

theorem one_sub_E2_eq : 1 - EARTH_E2 = (1 - EARTH_F) ^ 2 := by
  unfold EARTH_E2
  ring

theorem one_sub_E2_pos : 0 < 1 - EARTH_E2 := by
  rw [one_sub_E2_eq]
  exact pow_pos (by linarith [EARTH_F_bounds.2]) 2

theorem sqrt_one_sub_E2 : Real.sqrt (1 - EARTH_E2) = 1 - EARTH_F := by
  rw [one_sub_E2_eq, Real.sqrt_sq (by linarith [EARTH_F_bounds.2])]

theorem EARTH_E2_pos : 0 < EARTH_E2 := by
  unfold EARTH_E2
  nlinarith [EARTH_F_bounds.1, EARTH_F_bounds.2]

theorem headD_mem {α : Type} (l : List α) (h : l ≠ []) (d : α) : l.headD d ∈ l := by
  cases l with
  | nil => exact absurd rfl h
  | cons a t => simp

theorem getLastD_mem_cons {α : Type} : ∀ (l : List α) (a : α), l.getLastD a ∈ a :: l := by
  intro l
  induction l with
  | nil => intro a; simp
  | cons b t ih =>
    intro a
    rw [List.getLastD_cons]
    exact List.mem_cons_of_mem a (ih b)

theorem getLastD_mem {α : Type} (l : List α) (h : l ≠ []) (d : α) : l.getLastD d ∈ l := by
  cases l with
  | nil => exact absurd rfl h
  | cons a t =>
    simp only [List.getLastD_cons]
    exact getLastD_mem_cons t a

theorem getLastD_map_range {α : Type} (f : ℕ → α) (n : ℕ) (d : α) (h : n ≠ 0) :
    ((List.range n).map f).getLastD d = f (n - 1) := by
  obtain ⟨k, rfl⟩ := Nat.exists_eq_succ_of_ne_zero h
  rw [List.range_succ, List.map_append]
  simp

theorem pyround_lt_of_gap (x d : ℚ) (hd : 1 < d) : pyround x < pyround (x + d) := by
  have h1 := pyround_le x
  have h2 := le_pyround (x + d)
  have h3 : (pyround x : ℚ) < (pyround (x + d) : ℚ) := by linarith
  exact_mod_cast h3

theorem subsample_step_gt_one (total mk : ℕ) (h2 : 2 ≤ mk) (h : mk < total) :
    1 < ((total : ℚ) - 1) / ((mk : ℚ) - 1) := by
  have hmk : (2 : ℚ) ≤ (mk : ℚ) := by exact_mod_cast h2
  have htot : (mk : ℚ) + 1 ≤ (total : ℚ) := by exact_mod_cast h
  rw [one_lt_div (by linarith)]
  linarith

theorem subsample_pairwise (total mk : ℕ) (h2 : 2 ≤ mk) (h : mk < total) :
    (subsample_indices total mk).Pairwise (· < ·) := by
  unfold subsample_indices
  rw [if_neg (by omega)]
  rw [List.pairwise_map]
  have hstep := subsample_step_gt_one total mk h2 h
  refine (List.pairwise_lt_range mk).imp_of_mem ?_
  intro i j _ _ hij
  have hiq : (i : ℚ) + 1 ≤ (j : ℚ) := by exact_mod_cast hij
  set s : ℚ := ((total : ℚ) - 1) / ((mk : ℚ) - 1) with hs
  have hgap : 1 < s * ((j : ℚ) - (i : ℚ)) := by
    have hd : (1 : ℚ) ≤ (j : ℚ) - (i : ℚ) := by linarith
    nlinarith
  have := pyround_lt_of_gap (s * (i : ℚ)) (s * ((j : ℚ) - (i : ℚ))) hgap
  have harg : s * (i : ℚ) + s * ((j : ℚ) - (i : ℚ)) = s * (j : ℚ) := by ring
  rwa [harg] at this

theorem pyround_zero : pyround 0 = 0 := by
  unfold pyround
  rw [Int.floor_zero]
  norm_num

theorem subsample_head (total mk : ℕ) (h2 : 2 ≤ mk) (h : mk < total) :
    (subsample_indices total mk).head? = some 0 := by
  unfold subsample_indices
  rw [if_neg (by omega)]
  obtain ⟨k, hk⟩ := Nat.exists_eq_succ_of_ne_zero (n := mk) (by omega)
  subst hk
  rw [List.range_succ_eq_map]
  simp only [List.map_cons, List.head?_cons]
  have hz : ((total : ℚ) - 1) / (((k + 1 : ℕ) : ℚ) - 1) * ((0 : ℕ) : ℚ) = 0 := by
    push_cast
    ring
  rw [hz, pyround_zero]

theorem subsample_getLast (total mk : ℕ) (h2 : 2 ≤ mk) (h : mk < total) :
    (subsample_indices total mk).getLastD 0 = (total : ℤ) - 1 := by
  unfold subsample_indices
  rw [if_neg (by omega)]
  rw [getLastD_map_range _ _ _ (by omega)]
  have hc : ((mk - 1 : ℕ) : ℚ) = (mk : ℚ) - 1 := by
    have : (1 : ℕ) ≤ mk := by omega
    push_cast [Nat.cast_sub this]
    ring
  rw [hc]
  have hne : (mk : ℚ) - 1 ≠ 0 := by
    have : (2 : ℚ) ≤ (mk : ℚ) := by exact_mod_cast h2
    linarith
  rw [div_mul_cancel₀ _ hne]
  have hint : ((total : ℚ) - 1) = (((total : ℤ) - 1 : ℤ) : ℚ) := by push_cast; ring
  rw [hint, pyround_intCast]

theorem subsample_length (total mk : ℕ) (h : mk < total) :
    (subsample_indices total mk).length = mk := by
  unfold subsample_indices
  rw [if_neg (by omega)]
  simp

/-- C4: the subsampler keeps every index when the total fits within the
keyframe budget, and otherwise returns exactly `max_keyframes` strictly
increasing rounded-even-stride indices starting at 0 and ending at
`total - 1`; in particular for `total = 1000`, `max_keyframes = 25`. -/
theorem subsample_indices_spec (total mk : ℕ) (h1 : 1 ≤ total) (h2 : 2 ≤ mk) :
    (total ≤ mk → subsample_indices total mk = (List.range total).map (fun (i : ℕ) => (i : ℤ)))
    ∧ (mk < total →
        (subsample_indices total mk).length = mk
        ∧ (subsample_indices total mk).Pairwise (· < ·)
        ∧ (subsample_indices total mk).head? = some 0
        ∧ (subsample_indices total mk).getLastD 0 = (total : ℤ) - 1) := by
  constructor
  · intro hle
    unfold subsample_indices
    rw [if_pos hle]
  · intro hlt
    exact ⟨subsample_length total mk hlt, subsample_pairwise total mk h2 hlt,
      subsample_head total mk h2 hlt, subsample_getLast total mk h2 hlt⟩

/-- Witness for C4 at the concrete instance from the spec:
1000 source frames and a budget of 25 keyframes. -/
theorem subsample_indices_spec_witness :
    (subsample_indices 1000 25).length = 25
    ∧ (subsample_indices 1000 25).Pairwise (· < ·)
    ∧ (subsample_indices 1000 25).head? = some 0
    ∧ (subsample_indices 1000 25).getLastD 0 = 999 := by
  have h := (subsample_indices_spec 1000 25 (by norm_num) (by norm_num)).2 (by norm_num)
  refine ⟨h.1, h.2.1, h.2.2.1, ?_⟩
  rw [h.2.2.2]
  norm_num

/-- C2: heading interpolation follows the shortest-arc formula, its signed
delta never exceeds 180 degrees in magnitude, and blending 350 toward 10
halfway yields 0. -/
theorem lerp_angle_shortest_arc :
    (∀ a b t : ℝ,
      lerp_angle_deg a b t = pymodR (a + (pymodR (b - a + 180) 360 - 180) * t + 360) 360
      ∧ |pymodR (b - a + 180) 360 - 180| ≤ 180)
    ∧ lerp_angle_deg 350 10 (1 / 2) = 0 := by
  constructor
  · intro a b t
    refine ⟨rfl, ?_⟩
    have h := pymodR_bounds (b - a + 180) 360 (by norm_num)
    rw [abs_le]
    constructor <;> linarith [h.1, h.2]
  · unfold lerp_angle_deg
    have h1 : pymodR (10 - 350 + 180 : ℝ) 360 = (10 - 350 + 180 : ℝ) - 360 * (-1 : ℤ) :=
      pymodR_eval _ _ (-1) (by norm_num) (by norm_num) (by norm_num)
    have key : (350 : ℝ) + (pymodR (10 - 350 + 180 : ℝ) 360 - 180) * (1 / 2) + 360 = 720 := by
      rw [h1]
      push_cast
      ring
    rw [key]
    have h2 : pymodR (720 : ℝ) 360 = (720 : ℝ) - 360 * (2 : ℤ) :=
      pymodR_eval _ _ 2 (by norm_num) (by norm_num) (by norm_num)
    rw [h2]
    norm_num

theorem pyround_thousand : pyround (1000 : ℚ) = 1000 := by
  have h := pyround_intCast 1000
  exact_mod_cast h

/-- C7: the recommender adds the three scoring factors exactly as tabled,
always emits three justification strings, picks the platform by strict score
comparison with "hybrid" on ties, computes confidence as the rounded
normalized score gap, and on `max_alt = 50`, `max_speed = 5`,
`avg_radius = 300` returns drone 8, helicopter 0, platform "drone",
confidence 1. -/
theorem recommend_platform_spec :
    (∀ m : Motion,
      (recommend_platform m).drone_score =
          (if m.max_altitude_m ≤ 120 then 3 else if m.max_altitude_m ≤ 220 then 1 else 0)
        + (if m.max_speed_mps ≤ 10 then 3 else if m.max_speed_mps ≤ 18 then 1 else 0)
        + (if m.avg_radius_m ≤ 500 then 2 else if m.avg_radius_m ≤ 1000 then 1 else 0)
      ∧ (recommend_platform m).helicopter_score =
          (if m.max_altitude_m ≤ 120 then 0 else if m.max_altitude_m ≤ 220 then 1 else 3)
        + (if m.max_speed_mps ≤ 10 then 0 else if m.max_speed_mps ≤ 18 then 1 else 3)
        + (if m.avg_radius_m ≤ 500 then 0 else if m.avg_radius_m ≤ 1000 then 1 else 2)
      ∧ (recommend_platform m).reasons.length = 3
      ∧ ((recommend_platform m).recommended_platform = "drone" ↔
          (recommend_platform m).helicopter_score < (recommend_platform m).drone_score)
      ∧ ((recommend_platform m).recommended_platform = "helicopter" ↔
          (recommend_platform m).drone_score < (recommend_platform m).helicopter_score)
      ∧ ((recommend_platform m).recommended_platform = "hybrid" ↔
          (recommend_platform m).drone_score = (recommend_platform m).helicopter_score)
      ∧ (recommend_platform m).confidence =
          pyround3 ((|(recommend_platform m).drone_score - (recommend_platform m).helicopter_score| : ℤ)
            / ((max ((recommend_platform m).drone_score + (recommend_platform m).helicopter_score) 1 : ℤ) : ℚ)))
    ∧ (recommend_platform ⟨50, 5, 300⟩).drone_score = 8
    ∧ (recommend_platform ⟨50, 5, 300⟩).helicopter_score = 0
    ∧ (recommend_platform ⟨50, 5, 300⟩).recommended_platform = "drone"
    ∧ (recommend_platform ⟨50, 5, 300⟩).confidence = 1 := by
  constructor
  · intro m
    simp only [recommend_platform]
    split_ifs <;> simp_all [pyround3]
  · simp only [recommend_platform]
    norm_num [pyround3]
    rw [pyround_thousand]
    norm_num

theorem t_le_getLastD :
    ∀ (ks : List CameraKeyframe) (d : CameraKeyframe),
      (ks.map (fun k => k.t)).Sorted (· < ·) →
      ∀ k ∈ ks, k.t ≤ (ks.getLastD d).t := by
  intro ks
  induction ks with
  | nil => intro d _ k hk; exact absurd hk (List.not_mem_nil k)
  | cons a tail ih =>
    intro d hs k hk
    rw [List.map_cons] at hs
    have hall := (List.sorted_cons.1 hs).1
    have hs2 := (List.sorted_cons.1 hs).2
    rw [List.getLastD_cons]
    rcases List.mem_cons.1 hk with rfl | hmem
    · cases tail with
      | nil => simp
      | cons b t2 =>
        have hlast : (b :: t2).getLastD k ∈ b :: t2 :=
          getLastD_mem (b :: t2) (List.cons_ne_nil b t2) k
        exact le_of_lt (hall _ (List.mem_map_of_mem (fun x => x.t) hlast))
    · exact ih a hs2 k hmem

/-- C3: for a non-empty keyframe list with strictly increasing times, querying
at or before the first keyframe time returns the first keyframe state
unchanged, and querying at or after the last keyframe time returns the last
keyframe state unchanged. -/
theorem interpolate_state_clamps (ks : List CameraKeyframe) (hne : ks ≠ [])
    (hs : (ks.map (fun k => k.t)).Sorted (· < ·)) (t : ℚ) :
    (t ≤ (ks.headD dummyKeyframe).t →
      interpolate_state ks t = stateOf (ks.headD dummyKeyframe))
    ∧ ((ks.getLastD dummyKeyframe).t ≤ t →
      interpolate_state ks t = stateOf (ks.getLastD dummyKeyframe)) := by
  cases ks with
  | nil => exact absurd rfl hne
  | cons k0 rest =>
    constructor
    · intro hlow
      simp only [List.headD_cons] at hlow ⊢
      rw [interpolate_state, if_pos hlow]
    · intro hhigh
      by_cases hle : t ≤ k0.t
      · cases rest with
        | nil =>
          simp only [List.getLastD_cons, List.getLastD_nil] at hhigh ⊢
          rw [interpolate_state, if_pos hle]
        | cons b t2 =>
          exfalso
          have hmem : (b :: t2).getLastD k0 ∈ b :: t2 :=
            getLastD_mem (b :: t2) (List.cons_ne_nil b t2) k0
          have hs3 := hs
          rw [List.map_cons] at hs3
          have hall := (List.sorted_cons.1 hs3).1
          have hlt : k0.t < ((b :: t2).getLastD k0).t :=
            hall _ (List.mem_map_of_mem (fun x => x.t) hmem)
          rw [List.getLastD_cons] at hhigh
          linarith
      · have hcount : bisect_right ((k0 :: rest).map (fun k => k.t)) t
            = ((k0 :: rest).map (fun k => k.t)).length := by
          rw [bisect_right, List.countP_eq_length]
          intro x hx
          obtain ⟨k, hk, rfl⟩ := List.mem_map.1 hx
          have h1 := t_le_getLastD (k0 :: rest) dummyKeyframe hs k hk
          simp only [decide_eq_true_eq]
          linarith [hhigh, h1]
        have hge : (k0 :: rest).length ≤ bisect_right ((k0 :: rest).map (fun k => k.t)) t := by
          rw [hcount, List.length_map]
        rw [interpolate_state, if_neg hle, if_pos hge]

/-- Witness for C3 on a concrete two-keyframe plan: a query at the first
time returns the first state, a query past the last time returns the last
state. -/
theorem interpolate_state_clamps_witness :
    interpolate_state [⟨0, 1, 2, 3, 4, 5⟩, ⟨1, 6, 7, 8, 9, 10⟩] 0 = ⟨1, 2, 3, 4, 5⟩
    ∧ interpolate_state [⟨0, 1, 2, 3, 4, 5⟩, ⟨1, 6, 7, 8, 9, 10⟩] 2 = ⟨6, 7, 8, 9, 10⟩ := by
  have hs : (([⟨0, 1, 2, 3, 4, 5⟩, ⟨1, 6, 7, 8, 9, 10⟩] : List CameraKeyframe).map
      (fun k => k.t)).Sorted (· < ·) := by
    simp [List.sorted_cons]
  constructor
  · have h := (interpolate_state_clamps [⟨0, 1, 2, 3, 4, 5⟩, ⟨1, 6, 7, 8, 9, 10⟩]
      (by simp) hs 0).1 (by norm_num)
    simpa using h
  · have h := (interpolate_state_clamps [⟨0, 1, 2, 3, 4, 5⟩, ⟨1, 6, 7, 8, 9, 10⟩]
      (by simp) hs 2).2 (by norm_num)
    simpa using h

/-- Counterexample for C10: the orbit builder with `sweep_deg = 0` but
different start and end altitudes (0 and 100) over 2 samples produces
keyframes whose altitudes are 0 and 100, so not all keyframes share the same
`alt_m`. -/
theorem orbit_sweep_zero_counterexample :
    (orbit_keyframes 0 0 1 0 0 0 100 0 0 (-5) 2).map (fun k => k.alt_m) = [0, 100]
    ∧ (0 : ℝ) ≠ 100 := by
  constructor
  · simp only [orbit_keyframes, List.range_succ, List.range_zero, List.nil_append,
      List.cons_append, List.map_cons, List.map_nil]
    norm_num [lerp]
  · norm_num

/-- C10 amended: with `sweep_deg = 0` and constant radius and altitude
(start = end), all orbit keyframes share identical `lat`, `lng` and
`alt_m`. -/
theorem orbit_sweep_zero_amended (tlat tlng : ℝ) (dur : ℤ) (r alt az toff : ℝ) (s : ℕ)
    (k1 k2 : CameraKeyframe)
    (h1 : k1 ∈ orbit_keyframes tlat tlng dur r r alt alt az 0 toff s)
    (h2 : k2 ∈ orbit_keyframes tlat tlng dur r r alt alt az 0 toff s) :
    k1.lat = k2.lat ∧ k1.lng = k2.lng ∧ k1.alt_m = k2.alt_m := by
  obtain ⟨i, _, rfl⟩ := List.mem_map.1 h1
  obtain ⟨j, _, rfl⟩ := List.mem_map.1 h2
  simp only [lerp]
  norm_num

/-- Witness for the amended C10 on a concrete degenerate orbit: the first and
last of 2 keyframes agree on `lat`, `lng`, `alt_m`. -/
theorem orbit_sweep_zero_amended_witness :
    ((orbit_keyframes 0 0 1 5 5 7 7 3 0 (-5) 2).headD dummyKeyframe).lat
      = ((orbit_keyframes 0 0 1 5 5 7 7 3 0 (-5) 2).getLastD dummyKeyframe).lat
    ∧ ((orbit_keyframes 0 0 1 5 5 7 7 3 0 (-5) 2).headD dummyKeyframe).lng
      = ((orbit_keyframes 0 0 1 5 5 7 7 3 0 (-5) 2).getLastD dummyKeyframe).lng
    ∧ ((orbit_keyframes 0 0 1 5 5 7 7 3 0 (-5) 2).headD dummyKeyframe).alt_m
      = ((orbit_keyframes 0 0 1 5 5 7 7 3 0 (-5) 2).getLastD dummyKeyframe).alt_m := by
  have hne : orbit_keyframes 0 0 1 5 5 7 7 3 0 (-5) 2 ≠ [] := by
    simp [orbit_keyframes]
  exact orbit_sweep_zero_amended 0 0 1 5 7 3 (-5) 2 _ _
    (headD_mem _ hne dummyKeyframe) (getLastD_mem _ hne dummyKeyframe)

/-! Concrete evaluations of the geodesy layer at axis-aligned ECEF points,
used to evaluate the import pipeline on explicit documents. -/

theorem sqrt_sq_6378137 : Real.sqrt ((6378137 : ℝ) * 6378137 + 0 * 0) = 6378137 := by
  rw [show ((6378137 : ℝ) * 6378137 + 0 * 0) = 6378137 ^ 2 by ring]
  exact Real.sqrt_sq (by norm_num)

theorem ecef_iter_fixed_zero : ecefIterStep 0 6378137 0 = 0 := by
  unfold ecefIterStep
  rw [Real.sin_zero]
  rw [show (0 : ℝ) + EARTH_E2 * (EARTH_A / Real.sqrt (1 - EARTH_E2 * 0 * 0)) * 0 = 0 by ring]
  exact arctan2_zero_pos _ (by norm_num)

theorem ecef_to_geodetic_equator : ecef_to_geodetic 6378137 0 0 = (0, 0, 0) := by
  simp only [ecef_to_geodetic]
  rw [sqrt_sq_6378137]
  have hseed : arctan2 0 (6378137 * (1 - EARTH_E2)) = 0 := by
    refine arctan2_zero_pos _ ?_
    have := one_sub_E2_pos
    nlinarith
  rw [hseed, Function.iterate_fixed ecef_iter_fixed_zero 12]
  rw [Real.sin_zero, Real.cos_zero]
  rw [show (1 : ℝ) - EARTH_E2 * 0 * 0 = 1 by ring, Real.sqrt_one]
  rw [arctan2_zero_pos _ (by norm_num : (0:ℝ) < 6378137)]
  rw [if_pos (by norm_num : (1 : ℝ) / 10000000000 < |(1 : ℝ)|)]
  unfold EARTH_A degrees
  norm_num

theorem sqrt_sq_pole : Real.sqrt ((0 : ℝ) * 0 + 0 * 0 + 6356752 * 6356752) = 6356752 := by
  rw [show ((0 : ℝ) * 0 + 0 * 0 + 6356752 * 6356752) = 6356752 ^ 2 by ring]
  exact Real.sqrt_sq (by norm_num)

theorem ecef_iter_fixed_pole : ecefIterStep 6356752 0 (Real.pi / 2) = Real.pi / 2 := by
  unfold ecefIterStep
  rw [Real.sin_pi_div_two]
  refine arctan2_pos_zero _ ?_
  rw [show (1 : ℝ) - EARTH_E2 * 1 * 1 = 1 - EARTH_E2 by ring, sqrt_one_sub_E2]
  have hf := EARTH_F_bounds
  have hden : (0 : ℝ) < 1 - EARTH_F := by linarith
  have hA : (0 : ℝ) < EARTH_A := by unfold EARTH_A; norm_num
  have hE2 := EARTH_E2_pos
  have hn : (0 : ℝ) < EARTH_A / (1 - EARTH_F) := by positivity
  nlinarith

theorem ecef_to_geodetic_pole :
    ecef_to_geodetic 0 0 6356752 = (90, 0, 6356752 - EARTH_B) := by
  simp only [ecef_to_geodetic]
  rw [show ((0 : ℝ) * 0 + 0 * 0) = 0 by ring, Real.sqrt_zero]
  rw [show (0 : ℝ) * (1 - EARTH_E2) = 0 by ring]
  rw [arctan2_pos_zero _ (by norm_num : (0:ℝ) < 6356752)]
  rw [Function.iterate_fixed ecef_iter_fixed_pole 12]
  rw [Real.sin_pi_div_two, Real.cos_pi_div_two]
  rw [arctan2_zero_zero]
  rw [if_neg (by norm_num : ¬ ((1 : ℝ) / 10000000000 < |(0 : ℝ)|))]
  rw [degrees_zero, degrees_pi_div_two]
  norm_num

theorem ground_distance_zero : ground_distance_m 0 0 0 0 = 0 := by
  simp only [ground_distance_m, radians_zero]
  have h0 : Real.sin (((0 : ℝ) - 0) / 2) = 0 := by
    rw [show (((0 : ℝ) - 0) / 2) = 0 by norm_num, Real.sin_zero]
  rw [h0, Real.cos_zero]
  rw [show ((0 : ℝ) ^ 2 + 1 * 1 * 0 ^ 2) = 0 by ring]
  rw [Real.sqrt_zero, show ((1 : ℝ) - 0) = 1 by ring, Real.sqrt_one]
  rw [arctan2_zero_pos _ (by norm_num : (0:ℝ) < 1)]
  ring

theorem look_at_tilt_zero : look_at_tilt_deg 0 0 0 0 0 = 0 := by
  unfold look_at_tilt_deg
  rw [ground_distance_zero]
  rw [show max (0 : ℝ) 1 = 1 by norm_num]
  rw [arctan2_zero_pos _ (by norm_num : (0:ℝ) < 1), degrees_zero]

theorem detect_scale_equator : detect_ecef_scale ⟨6378137, 0, 0⟩ = some 1 := by
  unfold detect_ecef_scale ecef_magnitude
  dsimp only
  rw [show ((6378137 : ℝ) * 6378137 + 0 * 0 + 0 * 0) = 6378137 * 6378137 + 0 * 0 by ring]
  rw [if_pos]
  constructor <;> · rw [sqrt_sq_6378137]; norm_num

theorem detect_scale_pole : detect_ecef_scale ⟨0, 0, 6356752⟩ = some 1 := by
  unfold detect_ecef_scale ecef_magnitude
  dsimp only
  rw [if_pos]
  constructor <;> · rw [sqrt_sq_pole]; norm_num

/-- A one-frame interchange document with the camera on the equator at the
ellipsoid surface (ECEF `(6378137, 0, 0)`), no trackpoints. -/
def equatorDoc : EspData := ⟨[⟨6378137, 0, 0⟩], []⟩

/-- Counterexample for C8: importing a document whose single camera frame
sits on the ellipsoid surface produces a keyframe with `tilt_deg = 0`, which
is below the claimed lower bound 5 — parse_esp does not clamp tilt. -/
theorem parse_tilt_counterexample :
    (parse_esp equatorDoc 24 25 none none "clip").map
        (fun p => p.keyframes.map (fun k => k.tilt_deg)) = Except.ok [0]
    ∧ ¬ ((5 : ℝ) ≤ 0) := by
  constructor
  · have hgeo : ecef_to_geodetic ((6378137 : ℝ) * 1) (0 * 1) (0 * 1) = (0, 0, 0) := by
      rw [show ((6378137 : ℝ) * 1) = 6378137 by ring, show ((0 : ℝ) * 1) = 0 by ring]
      exact ecef_to_geodetic_equator
    simp only [parse_esp, equatorDoc, detect_scale_equator, resolveTarget1, resolveTarget2,
      meanR, subsample_indices, hgeo, look_at_tilt_zero, List.map_cons, List.map_nil]
    simp [Except.map, List.range_succ]
    exact look_at_tilt_zero
  · norm_num

theorem clamp_tilt_bounds (x : ℝ) :
    (5 : ℝ) ≤ max MIN_TILT_DEG (min MAX_TILT_DEG x)
    ∧ max MIN_TILT_DEG (min MAX_TILT_DEG x) ≤ 89 := by
  unfold MIN_TILT_DEG MAX_TILT_DEG
  exact ⟨le_max_left 5 _, max_le (by norm_num) (min_le_left 89 x)⟩

/-- C8 amended: every keyframe produced by the orbit, dolly and figure-eight
path builders has `tilt_deg` in `[5, 89]`; the interchange importer does not
clamp tilt (its look-at tilt can fall below 5, see the counterexample). -/
theorem builders_clamp_tilt :
    (∀ (tlat tlng : ℝ) (dur : ℤ) (r1 r2 a1 a2 az sw toff : ℝ) (s : ℕ),
      ∀ kf ∈ orbit_keyframes tlat tlng dur r1 r2 a1 a2 az sw toff s,
        (5 : ℝ) ≤ kf.tilt_deg ∧ kf.tilt_deg ≤ 89)
    ∧ (∀ (tlat tlng : ℝ) (dur : ℤ) (az d1 d2 a1 a2 l1 l2 : ℝ) (lf : Bool) (ft : ℝ) (s : ℕ),
      ∀ kf ∈ dolly_keyframes tlat tlng dur az d1 d2 a1 a2 l1 l2 lf ft s,
        (5 : ℝ) ≤ kf.tilt_deg ∧ kf.tilt_deg ≤ 89)
    ∧ (∀ (tlat tlng : ℝ) (dur : ℤ) (rm a1 a2 lp : ℝ) (s : ℕ),
      ∀ kf ∈ figure_eight_keyframes tlat tlng dur rm a1 a2 lp s,
        (5 : ℝ) ≤ kf.tilt_deg ∧ kf.tilt_deg ≤ 89) := by
  refine ⟨?_, ?_, ?_⟩
  · intro tlat tlng dur r1 r2 a1 a2 az sw toff s kf hkf
    obtain ⟨i, _, rfl⟩ := List.mem_map.1 hkf
    exact clamp_tilt_bounds _
  · intro tlat tlng dur az d1 d2 a1 a2 l1 l2 lf ft s kf hkf
    obtain ⟨i, _, rfl⟩ := List.mem_map.1 hkf
    cases lf <;> simp only [Bool.false_eq_true, if_false, if_true] <;> exact clamp_tilt_bounds _
  · intro tlat tlng dur rm a1 a2 lp s kf hkf
    obtain ⟨i, _, rfl⟩ := List.mem_map.1 hkf
    exact clamp_tilt_bounds _

/-- Witness for the amended C8: concrete instances of all three builders with
a keyframe whose tilt lies in `[5, 89]`. -/
theorem builders_clamp_tilt_witness :
    ((5 : ℝ) ≤ ((orbit_keyframes 1 2 3 4 5 6 7 8 9 10 2).headD dummyKeyframe).tilt_deg
      ∧ ((orbit_keyframes 1 2 3 4 5 6 7 8 9 10 2).headD dummyKeyframe).tilt_deg ≤ 89)
    ∧ ((5 : ℝ) ≤ ((dolly_keyframes 1 2 3 4 5 6 7 8 9 10 true 11 2).headD dummyKeyframe).tilt_deg
      ∧ ((dolly_keyframes 1 2 3 4 5 6 7 8 9 10 true 11 2).headD dummyKeyframe).tilt_deg ≤ 89)
    ∧ ((5 : ℝ) ≤ ((figure_eight_keyframes 1 2 3 4 5 6 7 2).headD dummyKeyframe).tilt_deg
      ∧ ((figure_eight_keyframes 1 2 3 4 5 6 7 2).headD dummyKeyframe).tilt_deg ≤ 89) := by
  refine ⟨?_, ?_, ?_⟩
  · exact builders_clamp_tilt.1 1 2 3 4 5 6 7 8 9 10 2 _
      (headD_mem _ (by simp [orbit_keyframes]) dummyKeyframe)
  · exact builders_clamp_tilt.2.1 1 2 3 4 5 6 7 8 9 10 true 11 2 _
      (headD_mem _ (by simp [dolly_keyframes]) dummyKeyframe)
  · exact builders_clamp_tilt.2.2 1 2 3 4 5 6 7 2 _
      (headD_mem _ (by simp [figure_eight_keyframes]) dummyKeyframe)

/-- C5: import succeeds only with camera frames present and the first
frame's ECEF magnitude inside `[5e6, 8e6]` raw or after scaling by 100; with
no frames, or with neither magnitude in that band, it fails. -/
theorem parse_scale_gate (data : EspData) (fps : ℤ) (mk : ℕ)
    (tl tn : Option ℝ) (stem : String) :
    ((parse_esp data fps mk tl tn stem).isOk = true →
      data.cameraFrames ≠ []
      ∧ ((5000000 ≤ ecef_magnitude (data.cameraFrames.headD ⟨0, 0, 0⟩).x
            (data.cameraFrames.headD ⟨0, 0, 0⟩).y (data.cameraFrames.headD ⟨0, 0, 0⟩).z
          ∧ ecef_magnitude (data.cameraFrames.headD ⟨0, 0, 0⟩).x
            (data.cameraFrames.headD ⟨0, 0, 0⟩).y (data.cameraFrames.headD ⟨0, 0, 0⟩).z ≤ 8000000)
        ∨ (5000000 ≤ ecef_magnitude ((data.cameraFrames.headD ⟨0, 0, 0⟩).x * 100)
            ((data.cameraFrames.headD ⟨0, 0, 0⟩).y * 100) ((data.cameraFrames.headD ⟨0, 0, 0⟩).z * 100)
          ∧ ecef_magnitude ((data.cameraFrames.headD ⟨0, 0, 0⟩).x * 100)
            ((data.cameraFrames.headD ⟨0, 0, 0⟩).y * 100)
            ((data.cameraFrames.headD ⟨0, 0, 0⟩).z * 100) ≤ 8000000)))
    ∧ ((data.cameraFrames = []
        ∨ (¬(5000000 ≤ ecef_magnitude (data.cameraFrames.headD ⟨0, 0, 0⟩).x
              (data.cameraFrames.headD ⟨0, 0, 0⟩).y (data.cameraFrames.headD ⟨0, 0, 0⟩).z
            ∧ ecef_magnitude (data.cameraFrames.headD ⟨0, 0, 0⟩).x
              (data.cameraFrames.headD ⟨0, 0, 0⟩).y (data.cameraFrames.headD ⟨0, 0, 0⟩).z ≤ 8000000)
          ∧ ¬(5000000 ≤ ecef_magnitude ((data.cameraFrames.headD ⟨0, 0, 0⟩).x * 100)
              ((data.cameraFrames.headD ⟨0, 0, 0⟩).y * 100) ((data.cameraFrames.headD ⟨0, 0, 0⟩).z * 100)
            ∧ ecef_magnitude ((data.cameraFrames.headD ⟨0, 0, 0⟩).x * 100)
              ((data.cameraFrames.headD ⟨0, 0, 0⟩).y * 100)
              ((data.cameraFrames.headD ⟨0, 0, 0⟩).z * 100) ≤ 8000000))) →
      (parse_esp data fps mk tl tn stem).isOk = false) := by
  rcases hframes : data.cameraFrames with _ | ⟨f0, fs⟩
  · constructor
    · intro hok
      rw [parse_esp.eq_def, hframes] at hok
      simp [Except.isOk, Except.toBool] at hok
    · intro _
      rw [parse_esp.eq_def, hframes]
      simp [Except.isOk, Except.toBool]
  · rcases hdet : detect_ecef_scale f0 with _ | scale
    · constructor
      · intro hok
        rw [parse_esp.eq_def, hframes] at hok
        simp only [hdet] at hok
        simp [Except.isOk, Except.toBool] at hok
      · intro _
        rw [parse_esp.eq_def, hframes]
        simp only [hdet]
        simp [Except.isOk, Except.toBool]
    · have hband : (5000000 < ecef_magnitude f0.x f0.y f0.z
            ∧ ecef_magnitude f0.x f0.y f0.z < 8000000)
          ∨ (5000000 < ecef_magnitude (f0.x * 100) (f0.y * 100) (f0.z * 100)
            ∧ ecef_magnitude (f0.x * 100) (f0.y * 100) (f0.z * 100) < 8000000) := by
        unfold detect_ecef_scale at hdet
        split_ifs at hdet with hc1 hc2
        · exact Or.inl hc1
        · exact Or.inr hc2
      constructor
      · intro _
        refine ⟨List.cons_ne_nil f0 fs, ?_⟩
        simp only [List.headD_cons]
        rcases hband with ⟨hl, hr⟩ | ⟨hl, hr⟩
        · exact Or.inl ⟨le_of_lt hl, le_of_lt hr⟩
        · exact Or.inr ⟨le_of_lt hl, le_of_lt hr⟩
      · intro hfail
        exfalso
        rcases hfail with habs | ⟨hna, hnb⟩
        · exact List.cons_ne_nil f0 fs habs
        · simp only [List.headD_cons] at hna hnb
          rcases hband with ⟨hl, hr⟩ | ⟨hl, hr⟩
          · exact hna ⟨le_of_lt hl, le_of_lt hr⟩
          · exact hnb ⟨le_of_lt hl, le_of_lt hr⟩

/-- Witness for C5: a document with no camera frames fails to import. -/
theorem parse_scale_gate_witness :
    (parse_esp ⟨[], []⟩ 24 25 none none "w").isOk = false :=
  (parse_scale_gate ⟨[], []⟩ 24 25 none none "w").2 (Or.inl rfl)

/-- The amended target-resolution priority, written from the spec's words
plus the sentinel exception the code forces: caller-supplied values are used
unless both are exactly 0 and no trackpoints exist (then the mean of the
converted frame positions is used); otherwise the first trackpoint;
otherwise the mean. -/
noncomputable def specResolvedTarget (tl tn : Option ℝ) (tps : List TrackPt)
    (geos : List (ℝ × ℝ × ℝ)) : ℝ × ℝ :=
  match tl, tn with
  | some la, some ln =>
    if la = 0 ∧ ln = 0 ∧ tps.isEmpty then
      (meanR (geos.map (fun g => g.1)), meanR (geos.map (fun g => g.2.1)))
    else (la, ln)
  | _, _ =>
    match tps with
    | tp :: _ => (tp.lat, tp.lng)
    | [] => (meanR (geos.map (fun g => g.1)), meanR (geos.map (fun g => g.2.1)))

theorem resolveTarget_eq_spec (tl tn : Option ℝ) (tps : List TrackPt)
    (geos : List (ℝ × ℝ × ℝ)) :
    resolveTarget2 (resolveTarget1 tl tn tps) tps geos
      = specResolvedTarget tl tn tps geos := by
  cases tl with
  | none =>
    cases tps with
    | nil => simp [resolveTarget1, resolveTarget2, specResolvedTarget]
    | cons tp rest =>
      cases tn <;> simp [resolveTarget1, resolveTarget2, specResolvedTarget]
  | some la =>
    cases tn with
    | none =>
      cases tps with
      | nil => simp [resolveTarget1, resolveTarget2, specResolvedTarget]
      | cons tp rest => simp [resolveTarget1, resolveTarget2, specResolvedTarget]
    | some ln => simp [resolveTarget1, resolveTarget2, specResolvedTarget]

/-- Counterexample for C6: a caller-supplied target of exactly `(0, 0)` with
no trackpoints is overridden by the mean of the converted frame positions —
here a single polar frame, giving resolved target `(90, 0)`, not the
supplied `(0, 0)`. -/
theorem parse_target_counterexample :
    (parse_esp ⟨[⟨0, 0, 6356752⟩], []⟩ 24 25 (some 0) (some 0) "clip").map
        (fun p => (p.target_lat, p.target_lng)) = Except.ok (90, 0)
    ∧ ((90 : ℝ), (0 : ℝ)) ≠ ((0 : ℝ), (0 : ℝ)) := by
  constructor
  · have hgeo : ecef_to_geodetic ((0 : ℝ) * 1) (0 * 1) (6356752 * 1)
        = (90, 0, 6356752 - EARTH_B) := by
      rw [show ((0 : ℝ) * 1) = 0 by ring, show ((6356752 : ℝ) * 1) = 6356752 by ring]
      exact ecef_to_geodetic_pole
    simp only [parse_esp, detect_scale_pole, resolveTarget1, resolveTarget2, meanR, hgeo,
      List.map_cons, List.map_nil, Except.map]
    norm_num
  · simp [Prod.ext_iff]

/-- C6 amended: whatever the caller supplies, the resolved import target is
exactly the spec-side priority amended with the `(0, 0)`-sentinel exception:
supplied values are used unless both are exactly 0 with no trackpoints (then
the mean fallback fires); otherwise first trackpoint; otherwise the mean of
converted frame positions. -/
theorem parse_target_amended (data : EspData) (fps : ℤ) (mk : ℕ) (tl tn : Option ℝ)
    (stem : String) (scale : ℝ)
    (hne : data.cameraFrames ≠ [])
    (hdet : detect_ecef_scale (data.cameraFrames.headD ⟨0, 0, 0⟩) = some scale) :
    (parse_esp data fps mk tl tn stem).map (fun p => (p.target_lat, p.target_lng))
      = Except.ok (specResolvedTarget tl tn data.trackPoints
          (data.cameraFrames.map
            (fun q => ecef_to_geodetic (q.x * scale) (q.y * scale) (q.z * scale)))) := by
  rcases hframes : data.cameraFrames with _ | ⟨f0, fs⟩
  · exact absurd hframes hne
  · rw [hframes, List.headD_cons] at hdet
    rw [parse_esp.eq_def, hframes]
    simp only [hdet, Except.map]
    rw [Prod.mk.eta, resolveTarget_eq_spec]

/-- Witness for the amended C6 on a concrete document with a fully supplied
non-sentinel target. -/
theorem parse_target_amended_witness :
    (parse_esp ⟨[⟨6378137, 0, 0⟩], []⟩ 24 25 (some 2) (some 3) "w").map
        (fun p => (p.target_lat, p.target_lng))
      = Except.ok (specResolvedTarget (some 2) (some 3) []
          (([⟨6378137, 0, 0⟩] : List Pos).map
            (fun q => ecef_to_geodetic (q.x * 1) (q.y * 1) (q.z * 1)))) := by
  exact parse_target_amended ⟨[⟨6378137, 0, 0⟩], []⟩ 24 25 (some 2) (some 3) "w" 1
    (by simp) (by exact detect_scale_equator)

theorem getLastD_map_ne {α β : Type} (f : α → β) :
    ∀ (l : List α), l ≠ [] → ∀ (d1 : α) (d2 : β),
      (l.map f).getLastD d2 = f (l.getLastD d1) := by
  intro l
  induction l with
  | nil => intro h; exact absurd rfl h
  | cons a t ih =>
    intro _ d1 d2
    rw [List.map_cons, List.getLastD_cons, List.getLastD_cons]
    cases t with
    | nil => simp
    | cons b t2 => exact ih (List.cons_ne_nil b t2) a (f a)

theorem nat_sub_one_cast (s : ℕ) (h : 1 ≤ s) : ((s - 1 : ℕ) : ℚ) = (s : ℚ) - 1 := by
  push_cast [Nat.cast_sub h]
  ring

theorem orbit_last_t (tlat tlng : ℝ) (dur : ℤ) (r1 r2 a1 a2 az sw toff : ℝ) (s : ℕ)
    (hs : 2 ≤ s) :
    ((orbit_keyframes tlat tlng dur r1 r2 a1 a2 az sw toff s).getLastD dummyKeyframe).t
      = (dur : ℚ) := by
  unfold orbit_keyframes
  rw [getLastD_map_range _ _ _ (by omega)]
  dsimp only
  rw [nat_sub_one_cast s (by omega)]
  have hne : (s : ℚ) - 1 ≠ 0 := by
    have h2 : (2 : ℚ) ≤ (s : ℚ) := by exact_mod_cast hs
    linarith
  rw [div_self hne, mul_one]

theorem dolly_last_t (tlat tlng : ℝ) (dur : ℤ) (az d1 d2 a1 a2 l1 l2 : ℝ) (lf : Bool)
    (ft : ℝ) (s : ℕ) (hs : 2 ≤ s) :
    ((dolly_keyframes tlat tlng dur az d1 d2 a1 a2 l1 l2 lf ft s).getLastD dummyKeyframe).t
      = (dur : ℚ) := by
  unfold dolly_keyframes
  rw [getLastD_map_range _ _ _ (by omega)]
  dsimp only
  rw [nat_sub_one_cast s (by omega)]
  have hne : (s : ℚ) - 1 ≠ 0 := by
    have h2 : (2 : ℚ) ≤ (s : ℚ) := by exact_mod_cast hs
    linarith
  rw [div_self hne, mul_one]

theorem subsample_ne_nil (total mk : ℕ) (h1 : 1 ≤ total) (h2 : 2 ≤ mk) :
    subsample_indices total mk ≠ [] := by
  unfold subsample_indices
  split_ifs with h
  · simp only [ne_eq, List.map_eq_nil_iff]
    exact fun habs => by simp [List.range_eq_nil] at habs; omega
  · simp only [ne_eq, List.map_eq_nil_iff]
    exact fun habs => by simp [List.range_eq_nil] at habs; omega

theorem subsample_getLastD_eq (total mk : ℕ) (h1 : 1 ≤ total) (h2 : 2 ≤ mk) :
    (subsample_indices total mk).getLastD 0 = (total : ℤ) - 1 := by
  by_cases h : total ≤ mk
  · unfold subsample_indices
    rw [if_pos h, getLastD_map_range _ _ _ (by omega)]
    have : (1 : ℕ) ≤ total := h1
    push_cast [Nat.cast_sub this]
    ring
  · exact subsample_getLast total mk h2 (by omega)

/-- C9 amended: for shot-library plans duration_sec equals (hence covers)
the last keyframe time; for imported plans duration_sec is the rounded frame
count over fps and can undershoot the last keyframe time by at most one half
second. -/
theorem duration_covers_keyframes :
    (∀ (tlat tlng : ℝ) (dur num : ℤ) (plans : List ShotPlan),
      generate_shot_plans tlat tlng dur num = .ok plans →
      ∀ plan ∈ plans,
        ((plan.keyframes.getLastD dummyKeyframe).t : ℚ) ≤ (plan.duration_sec : ℚ))
    ∧ (∀ (data : EspData) (fps : ℤ) (mk : ℕ) (tl tn : Option ℝ) (stem : String)
        (plan : ShotPlan),
      2 ≤ mk → parse_esp data fps mk tl tn stem = .ok plan →
      ((plan.keyframes.getLastD dummyKeyframe).t : ℚ) ≤ (plan.duration_sec : ℚ) + 1 / 2) := by
  constructor
  · intro tlat tlng dur num plans hok plan hmem
    by_cases hnum : num < 1
    · rw [generate_shot_plans, if_pos hnum] at hok
      exact absurd hok (by simp)
    · rw [generate_shot_plans, if_neg hnum] at hok
      simp only [Except.ok.injEq] at hok
      subst hok
      have hmem2 : plan ∈ shotCatalog tlat tlng dur := List.take_subset _ _ hmem
      simp only [shotCatalog, List.mem_cons, List.mem_singleton] at hmem2
      rcases hmem2 with rfl | rfl | rfl | rfl | rfl | rfl | rfl | rfl | rfl | rfl | habs
      · rw [orbit_last_t _ _ _ _ _ _ _ _ _ _ _ (by norm_num)]
      · rw [dolly_last_t _ _ _ _ _ _ _ _ _ _ _ _ _ (by norm_num)]
      · rw [orbit_last_t _ _ _ _ _ _ _ _ _ _ _ (by norm_num)]
      · rw [dolly_last_t _ _ _ _ _ _ _ _ _ _ _ _ _ (by norm_num)]
      · rw [orbit_last_t _ _ _ _ _ _ _ _ _ _ _ (by norm_num)]
      · rw [dolly_last_t _ _ _ _ _ _ _ _ _ _ _ _ _ (by norm_num)]
      · rw [orbit_last_t _ _ _ _ _ _ _ _ _ _ _ (by norm_num)]
      · rw [orbit_last_t _ _ _ _ _ _ _ _ _ _ _ (by norm_num)]
      · rw [orbit_last_t _ _ _ _ _ _ _ _ _ _ _ (by norm_num)]
      · rw [orbit_last_t _ _ _ _ _ _ _ _ _ _ _ (by norm_num)]
      · exact absurd habs (List.not_mem_nil plan)
  · intro data fps mk tl tn stem plan hmk hok
    rcases hframes : data.cameraFrames with _ | ⟨f0, fs⟩
    · rw [parse_esp.eq_def, hframes] at hok
      simp at hok
    · rw [parse_esp.eq_def, hframes] at hok
      rcases hdet : detect_ecef_scale f0 with _ | scale
      · simp only [hdet] at hok
        simp at hok
      · simp only [hdet, Except.ok.injEq] at hok
        subst hok
        dsimp only
        set conv := fun q : Pos =>
          ecef_to_geodetic (q.x * scale) (q.y * scale) (q.z * scale) with hconv
        set T : ℕ := ((f0 :: fs).map conv).length with hT
        have hT1 : 1 ≤ T := by
          rw [hT, List.length_map]
          simp
        set m : ℤ := max fps 1 with hm
        have hm1 : (1 : ℤ) ≤ m := le_max_right fps 1
        have hmq : (1 : ℚ) ≤ (m : ℚ) := by exact_mod_cast hm1
        have hmpos : (0 : ℚ) < (m : ℚ) := by linarith
        have hlast := getLastD_map_ne
          (fun idx : ℤ =>
            (⟨((idx : ℚ) / (m : ℚ)), (((f0 :: fs).map conv).getD idx.toNat (0, 0, 0)).1,
              (((f0 :: fs).map conv).getD idx.toNat (0, 0, 0)).2.1,
              (((f0 :: fs).map conv).getD idx.toNat (0, 0, 0)).2.2,
              bearing_deg (((f0 :: fs).map conv).getD idx.toNat (0, 0, 0)).1
                (((f0 :: fs).map conv).getD idx.toNat (0, 0, 0)).2.1
                (resolveTarget2 (resolveTarget1 tl tn data.trackPoints) data.trackPoints
                  ((f0 :: fs).map conv)).1
                (resolveTarget2 (resolveTarget1 tl tn data.trackPoints) data.trackPoints
                  ((f0 :: fs).map conv)).2,
              look_at_tilt_deg (((f0 :: fs).map conv).getD idx.toNat (0, 0, 0)).1
                (((f0 :: fs).map conv).getD idx.toNat (0, 0, 0)).2.1
                (((f0 :: fs).map conv).getD idx.toNat (0, 0, 0)).2.2
                (resolveTarget2 (resolveTarget1 tl tn data.trackPoints) data.trackPoints
                  ((f0 :: fs).map conv)).1
                (resolveTarget2 (resolveTarget1 tl tn data.trackPoints) data.trackPoints
                  ((f0 :: fs).map conv)).2⟩ : CameraKeyframe))
          (subsample_indices T mk) (subsample_ne_nil T mk hT1 hmk) 0 dummyKeyframe
        rw [hlast]
        dsimp only
        rw [subsample_getLastD_eq T mk hT1 hmk]
        have hround := le_pyround ((T : ℚ) / (m : ℚ))
        have hcast : (((T : ℤ) - 1 : ℤ) : ℚ) = (T : ℚ) - 1 := by push_cast; ring
        rw [hcast]
        rw [sub_div]
        have hfrac : (0 : ℚ) ≤ 1 / (m : ℚ) := by positivity
        have hTm : (T : ℚ) / (m : ℚ) - 1 / (m : ℚ) ≤ (T : ℚ) / (m : ℚ) := by linarith
        linarith

theorem pyround_one_twelfth : pyround (1 / 12 : ℚ) = 0 := by
  unfold pyround
  have hfl : ⌊(1 / 12 : ℚ)⌋ = 0 := by
    rw [show ((0 : ℤ)) = ⌊(0 : ℚ)⌋ by rw [Int.floor_zero]] at *
    rw [Int.floor_eq_iff] <;> norm_num
  rw [hfl]
  norm_num

/-- Counterexample for C9: importing two frames at fps 24 yields
`duration_sec = round(2/24) = 0`, strictly below the last keyframe time
`1/24`. -/
theorem parse_duration_counterexample :
    (parse_esp ⟨[⟨6378137, 0, 0⟩, ⟨6378137, 0, 0⟩], []⟩ 24 25 (some 1) (some 1) "clip").map
        (fun p => ((p.duration_sec : ℚ), p.keyframes.map (fun k => k.t)))
      = Except.ok (0, [0, 1 / 24])
    ∧ ¬ ((1 / 24 : ℚ) ≤ 0) := by
  constructor
  · simp only [parse_esp, detect_scale_equator, resolveTarget1, resolveTarget2,
      List.map_cons, List.map_nil, Except.map, List.length_cons, List.length_nil,
      subsample_indices]
    norm_num [pyround_one_twelfth, List.range_succ]
  · norm_num

/-- Witness for the amended C9 on a concrete generated shot plan: the first
plan for a 2-second request has its last keyframe at or before 2 seconds. -/
theorem duration_covers_keyframes_witness :
    ((((shotCatalog 0 0 2).take (min (1 : ℤ).toNat 10)).headD
        ⟨"", "", "", 0, 0, 0, [], ""⟩).keyframes.getLastD dummyKeyframe).t
      ≤ (((((shotCatalog 0 0 2).take (min (1 : ℤ).toNat 10)).headD
        ⟨"", "", "", 0, 0, 0, [], ""⟩).duration_sec : ℤ) : ℚ) := by
  have hne : (shotCatalog 0 0 2).take (min (1 : ℤ).toNat 10) ≠ [] := by
    simp [shotCatalog]
  exact duration_covers_keyframes.1 0 0 2 1 _ (by rw [generate_shot_plans, if_neg (by norm_num)])
    _ (headD_mem _ hne ⟨"", "", "", 0, 0, 0, [], ""⟩)

end EarthPreviz
